import Mathlib

/-!
Resource fetch layer of concourse: fetch source provider, fetch container creator, resource get

Shallow embedding of

* `resource/fetch_source_provider.go`   (`fetchSourceProvider.Get`, `findCacheVolumeForContainer`,
  `NewFetchSourceProvider`),
* `resource/fetch_container_creator.go` (`fetchContainerCreator.CreateWithVolume`,
  `NewFetchContainerCreator`),
* `atc/resource` `Resource.Get` (only its test file is present; the function is modelled from the
  specification).

Conventions of the embedding.

* A Go interface or pointer value that the code receives from a collaborator may be `nil`; it is
  an `Option`. Calling a method on `nil` is a run-time panic: `Outcome.panicked`.
* The collaborators (worker client, resource instance, workers, script runner) are stateful and
  live outside these sources. Their state is an arbitrary type `σ`; every collaborator method is
  a function that takes the state and returns its Go results together with the next state.
* Every call the code makes on a collaborator or on the logger is appended to a call log
  (`Exec.calls`), with its receiver, arguments and results, in program order.
* Plain getters (`VolumeMounts()`, `Handle()`, `ResourceType()`, `Env()`) are field reads.
* The receiver's own fields on which the code calls methods (logger, worker client, resource
  instance, resource options, metadata) are present objects, as the factories build them.
-/

namespace Go

/-- Go `error` values; `nil` is `none` of `Option Go.error`. -/
structure error where
  text : String
deriving DecidableEq

/-- How a Go function call ends: it returns its results, or a run-time panic unwinds it. -/
inductive Outcome (α : Type) where
  | returned (results : α)
  | panicked
deriving DecidableEq

end Go

namespace lager

/-- Values of `lager.Logger`. -/
structure Logger where
  session : String
deriving DecidableEq

/-- Values of `lager.Data`: the key/value pairs of one log line. -/
abbrev Data := List (String × String)

end lager

namespace atc

/-- Values of `atc.Tags`. -/
abbrev Tags := List String

/-- One entry of `atc.ResourceTypes`. -/
structure ResourceType where
  Name : String
  TypeName : String
deriving DecidableEq

/-- Values of `atc.ResourceTypes`. -/
abbrev ResourceTypes := List ResourceType

end atc

namespace worker

/-- Values of `worker.Volume` (an interface; `nil` is `none` of `Option Volume`). -/
structure Volume where
  Handle : String
deriving DecidableEq

/-- Values of `worker.VolumeMount`. -/
structure VolumeMount where
  Volume : Option Volume
  MountPath : String
deriving DecidableEq

/-- Values of `worker.Container` (an interface; `nil` is `none` of `Option Container`). -/
structure Container where
  Handle : String
  VolumeMounts : List VolumeMount
deriving DecidableEq

/-- Values of `worker.Worker` (an interface; `nil` is `none` of `Option Worker`). A worker is
named by a handle; what its `CreateContainer` method does is given by `worker.Fleet`. -/
structure Worker where
  Name : String
deriving DecidableEq

/-- Values of `worker.Identifier` (the `ID` of a session). -/
structure Identifier where
  key : String
deriving DecidableEq

/-- Values of `worker.Metadata` (the `Metadata` of a session). -/
structure Metadata where
  entries : List (String × String)
deriving DecidableEq

/-- Values of `worker.ImageFetchingDelegate`. -/
structure ImageFetchingDelegate where
  name : String
deriving DecidableEq

/-- The fields of `worker.WorkerSpec` that `fetchSourceProvider.Get` sets. -/
structure WorkerSpec where
  ResourceType : String
  Tags : atc.Tags
  TeamID : Int
deriving DecidableEq

/-- The fields of `worker.ImageSpec` that `CreateWithVolume` sets. -/
structure ImageSpec where
  ResourceType : String
  Privileged : Bool
deriving DecidableEq

/-- Modelled from the spec: `worker.ContainerSpec`, whose declaration is not among the sources.
It has the fields the composite literal in `CreateWithVolume` names, and the input mounts
(`Inputs`), which are the counterpart of the output mounts; a field that a Go composite
literal does not name holds its zero value. -/
structure ContainerSpec where
  ImageSpec : ImageSpec
  Ephemeral : Bool
  Tags : atc.Tags
  Env : List String
  Inputs : List VolumeMount
  Outputs : List VolumeMount
deriving DecidableEq

/-- Go results of `FindContainerForIdentifier`: `(Container, bool, error)`. -/
structure FindContainerResult where
  container : Option Container
  found : Bool
  err : Option Go.error
deriving DecidableEq

/-- Go results of `Satisfying`: `(Worker, error)`. -/
structure SatisfyingResult where
  worker : Option Worker
  err : Option Go.error
deriving DecidableEq

/-- Go results of `CreateContainer`: `(Container, error)`. -/
structure CreateContainerResult where
  container : Option Container
  err : Option Go.error
deriving DecidableEq

/-- The arguments of `Worker.CreateContainer`, in order. The second one is nil exactly when
`signalsPresent` is false. -/
structure CreateContainerArgs where
  logger : lager.Logger
  signalsPresent : Bool
  delegate : worker.ImageFetchingDelegate
  id : Identifier
  metadata : Metadata
  spec : ContainerSpec
  resourceTypes : atc.ResourceTypes
deriving DecidableEq

/-- The methods of `worker.Client` that the provider uses, over a collaborator state `σ`. -/
structure Client (σ : Type) where
  FindContainerForIdentifier : lager.Logger → Identifier → σ → FindContainerResult × σ
  Satisfying : WorkerSpec → atc.ResourceTypes → σ → SatisfyingResult × σ

/-- What `CreateContainer` does on each worker of the fleet, over a collaborator state `σ`. -/
structure Fleet (σ : Type) where
  CreateContainer : Worker → CreateContainerArgs → σ → CreateContainerResult × σ

end worker

namespace resource

/-- Values of `resource.Session`. -/
structure Session where
  ID : worker.Identifier
  Metadata : worker.Metadata
  Ephemeral : Bool
deriving DecidableEq

/-- Values of `resource.ResourceType` (a Go string type). -/
abbrev ResourceType := String

/-- Values of `resource.ResourceOptions`: `ResourceType()` is the getter the provider uses. -/
structure ResourceOptions where
  ResourceType : ResourceType
  LockName : String
deriving DecidableEq

/-- Values of `resource.Metadata`: `Env()` is the getter the container creator uses. -/
structure Metadata where
  Env : List String
deriving DecidableEq

/-- Go results of `ResourceInstance.FindOn`: `(Volume, bool, error)`. -/
structure FindOnResult where
  volume : Option worker.Volume
  found : Bool
  err : Option Go.error
deriving DecidableEq

/-- Go results of `ResourceInstance.FindOrCreateOn`: `(Volume, error)`. -/
structure FindOrCreateOnResult where
  volume : Option worker.Volume
  err : Option Go.error
deriving DecidableEq

/-- The methods of `ResourceInstance` that the provider uses, over a collaborator state `σ`. -/
structure ResourceInstance (σ : Type) where
  FindOn : lager.Logger → Option worker.Worker → σ → FindOnResult × σ
  FindOrCreateOn : lager.Logger → Option worker.Worker → σ → FindOrCreateOnResult × σ

/-- One entry of the call log: a call made on a collaborator or on the logger, with its
arguments and, for a collaborator, the results it gave. -/
inductive Call where
  | FindContainerForIdentifier (logger : lager.Logger) (id : worker.Identifier)
      (results : worker.FindContainerResult)
  | Satisfying (spec : worker.WorkerSpec) (resourceTypes : atc.ResourceTypes)
      (results : worker.SatisfyingResult)
  | FindOn (logger : lager.Logger) (onWorker : Option worker.Worker) (results : FindOnResult)
  | FindOrCreateOn (logger : lager.Logger) (onWorker : Option worker.Worker)
      (results : FindOrCreateOnResult)
  | CreateWithVolume (resourceType : String) (volume : Option worker.Volume)
      (chosenWorker : Option worker.Worker) (results : worker.CreateContainerResult)
  | CreateContainer (receiver : worker.Worker) (args : worker.CreateContainerArgs)
      (results : worker.CreateContainerResult)
  | LoggerError (logger : lager.Logger) (action : String) (err : Go.error)
  | LoggerDebug (logger : lager.Logger) (action : String) (data : lager.Data)
deriving DecidableEq

/-- What running a piece of code gives: how it ended, the collaborator state it left, and the
calls it made, in order. -/
structure Exec (σ : Type) (α : Type) where
  outcome : Go.Outcome α
  state : σ
  calls : List Call

/-- The `FetchContainerCreator` interface, over a collaborator state `σ`. -/
structure FetchContainerCreator (σ : Type) where
  CreateWithVolume : String → Option worker.Volume → Option worker.Worker → σ →
    Exec σ worker.CreateContainerResult

/-- Functions of package `resource` that the sources call and that are declared in files
outside them: the fixed mount path `ResourcesDir` and the two `FetchSource` constructors.
They are parameters of the embedding; `FS` is the type of the `FetchSource` values built. -/
structure PackageFuncs (σ : Type) (FS : Type) where
  ResourcesDir : String → String
  NewContainerFetchSource : lager.Logger → Option worker.Container → Option worker.Volume →
    ResourceOptions → FS
  NewVolumeFetchSource : lager.Logger → Option worker.Volume → Option worker.Worker →
    ResourceOptions → FetchContainerCreator σ → FS

/-- The struct `fetchSourceProvider`. -/
structure fetchSourceProvider (σ : Type) where
  logger : lager.Logger
  session : Session
  tags : atc.Tags
  teamID : Int
  resourceTypes : atc.ResourceTypes
  resourceInstance : ResourceInstance σ
  resourceOptions : ResourceOptions
  workerClient : worker.Client σ
  containerCreator : FetchContainerCreator σ

/-- The struct `fetchSourceProviderFactory`. -/
structure fetchSourceProviderFactory (σ : Type) where
  workerClient : worker.Client σ

/-- The constructor `NewFetchSourceProviderFactory`. -/
def NewFetchSourceProviderFactory {σ : Type} (workerClient : worker.Client σ) :
    fetchSourceProviderFactory σ :=
  { workerClient := workerClient }

/-- The method `fetchSourceProviderFactory.NewFetchSourceProvider`. -/
def fetchSourceProviderFactory.NewFetchSourceProvider {σ : Type}
    (f : fetchSourceProviderFactory σ) (logger : lager.Logger) (session : Session)
    (tags : atc.Tags) (teamID : Int) (resourceTypes : atc.ResourceTypes)
    (resourceInstance : ResourceInstance σ) (resourceOptions : ResourceOptions)
    (containerCreator : FetchContainerCreator σ) : fetchSourceProvider σ :=
  { logger := logger
    session := session
    tags := tags
    teamID := teamID
    resourceTypes := resourceTypes
    resourceInstance := resourceInstance
    resourceOptions := resourceOptions
    containerCreator := containerCreator
    workerClient := f.workerClient }

/-- The loop of `findCacheVolumeForContainer` over the mounts, in list order: the first mount
at `ResourcesDir("get")` ends it with `(mount.Volume, true)`; falling out of the loop gives
`(nil, false)`. -/
def findCacheVolumeForContainer.range {σ FS : Type} (pkg : PackageFuncs σ FS) :
    List worker.VolumeMount → Option worker.Volume × Bool
  | [] => (none, false)
  | mount :: rest =>
    if mount.MountPath = pkg.ResourcesDir "get" then (mount.Volume, true)
    else findCacheVolumeForContainer.range pkg rest

/-- The function `findCacheVolumeForContainer`. `container.VolumeMounts()` on a nil container
panics. -/
def findCacheVolumeForContainer {σ FS : Type} (pkg : PackageFuncs σ FS)
    (container : Option worker.Container) : Go.Outcome (Option worker.Volume × Bool) :=
  match container with
  | none => Go.Outcome.panicked
  | some c => Go.Outcome.returned (findCacheVolumeForContainer.range pkg c.VolumeMounts)

/-- The part of `fetchSourceProvider.Get` after the container reuse check (from the
`resourceSpec` literal to the end): worker selection, cache lookup, cache creation. `s1` and
`t1` are the collaborator state and the call log reached so far. -/
def fetchSourceProvider.Get.placement {σ FS : Type} (pkg : PackageFuncs σ FS)
    (f : fetchSourceProvider σ) (s1 : σ) (t1 : List Call) :
    Exec σ (Option FS × Option Go.error) :=
  let resourceSpec : worker.WorkerSpec :=
    { ResourceType := f.resourceOptions.ResourceType
      Tags := f.tags
      TeamID := f.teamID }
  let r2 := f.workerClient.Satisfying resourceSpec f.resourceTypes s1
  let t2 := t1 ++ [Call.Satisfying resourceSpec f.resourceTypes r2.1]
  match r2.1.err with
  | some err =>
    ⟨Go.Outcome.returned (none, some err), r2.2,
      t2 ++ [Call.LoggerError f.logger "no-workers-satisfying-spec" err]⟩
  | none =>
    let chosenWorker := r2.1.worker
    let r3 := f.resourceInstance.FindOn f.logger chosenWorker r2.2
    let t3 := t2 ++ [Call.FindOn f.logger chosenWorker r3.1]
    match r3.1.err with
    | some err =>
      ⟨Go.Outcome.returned (none, some err), r3.2,
        t3 ++ [Call.LoggerError f.logger "failed-to-look-for-cache" err]⟩
    | none =>
      if r3.1.found then
        match r3.1.volume with
        | none => ⟨Go.Outcome.panicked, r3.2, t3⟩
        | some cachedVolume =>
          ⟨Go.Outcome.returned
              (some (pkg.NewVolumeFetchSource f.logger (some cachedVolume) chosenWorker
                f.resourceOptions f.containerCreator), none),
            r3.2,
            t3 ++ [Call.LoggerDebug f.logger "found-cache" [("volume", cachedVolume.Handle)]]⟩
      else
        let t3n := t3 ++ [Call.LoggerDebug f.logger "no-cache-found" []]
        let r4 := f.resourceInstance.FindOrCreateOn f.logger chosenWorker r3.2
        let t4 := t3n ++ [Call.FindOrCreateOn f.logger chosenWorker r4.1]
        match r4.1.err with
        | some err =>
          ⟨Go.Outcome.returned (none, some err), r4.2,
            t4 ++ [Call.LoggerError f.logger "failed-to-create-cache" err]⟩
        | none =>
          ⟨Go.Outcome.returned
              (some (pkg.NewVolumeFetchSource f.logger r4.1.volume chosenWorker
                f.resourceOptions f.containerCreator), none),
            r4.2, t4⟩

/-- The method `fetchSourceProvider.Get`, run from collaborator state `s0`. -/
def fetchSourceProvider.Get {σ FS : Type} (pkg : PackageFuncs σ FS)
    (f : fetchSourceProvider σ) (s0 : σ) : Exec σ (Option FS × Option Go.error) :=
  let r1 := f.workerClient.FindContainerForIdentifier f.logger f.session.ID s0
  let t1 := [Call.FindContainerForIdentifier f.logger f.session.ID r1.1]
  match r1.1.err with
  | some err =>
    ⟨Go.Outcome.returned (none, some err), r1.2,
      t1 ++ [Call.LoggerError f.logger "failed-to-look-for-existing-container" err]⟩
  | none =>
    if r1.1.found then
      match findCacheVolumeForContainer pkg r1.1.container with
      | Go.Outcome.panicked => ⟨Go.Outcome.panicked, r1.2, t1⟩
      | Go.Outcome.returned (cacheVolume, cacheVolumeFound) =>
        if cacheVolumeFound then
          ⟨Go.Outcome.returned
              (some (pkg.NewContainerFetchSource f.logger r1.1.container cacheVolume
                f.resourceOptions), none),
            r1.2, t1⟩
        else fetchSourceProvider.Get.placement pkg f r1.2 t1
    else fetchSourceProvider.Get.placement pkg f r1.2 t1

/-- The struct `fetchContainerCreator` (its field `worker` is listed last here). -/
structure fetchContainerCreator where
  logger : lager.Logger
  resourceTypes : atc.ResourceTypes
  tags : atc.Tags
  session : Session
  metadata : Metadata
  imageFetchingDelegate : worker.ImageFetchingDelegate
  worker : Option worker.Worker
deriving DecidableEq

/-- The method `fetchContainerCreatorFactory.NewFetchContainerCreator`. The composite literal
does not name the field `worker`, which stays nil. -/
def NewFetchContainerCreator (logger : lager.Logger) (resourceTypes : atc.ResourceTypes)
    (tags : atc.Tags) (session : Session) (metadata : Metadata)
    (imageFetchingDelegate : worker.ImageFetchingDelegate) : fetchContainerCreator :=
  { logger := logger
    resourceTypes := resourceTypes
    tags := tags
    session := session
    metadata := metadata
    imageFetchingDelegate := imageFetchingDelegate
    worker := none }

/-- The method `fetchContainerCreator.CreateWithVolume`, run from collaborator state `s`.
`chosenWorker.CreateContainer` on a nil worker panics; the second argument of the call is the
literal `nil`. -/
def fetchContainerCreator.CreateWithVolume {σ FS : Type} (pkg : PackageFuncs σ FS)
    (fleet : worker.Fleet σ) (c : fetchContainerCreator) (resourceType : String)
    (volume : Option worker.Volume) (chosenWorker : Option worker.Worker) (s : σ) :
    Exec σ worker.CreateContainerResult :=
  let containerSpec : worker.ContainerSpec :=
    { ImageSpec :=
        { ResourceType := resourceType
          Privileged := true }
      Ephemeral := c.session.Ephemeral
      Tags := c.tags
      Env := c.metadata.Env
      Inputs := []
      Outputs := [{ Volume := volume, MountPath := pkg.ResourcesDir "get" }] }
  match chosenWorker with
  | none => ⟨Go.Outcome.panicked, s, []⟩
  | some w =>
    let args : worker.CreateContainerArgs :=
      { logger := c.logger
        signalsPresent := false
        delegate := c.imageFetchingDelegate
        id := c.session.ID
        metadata := c.session.Metadata
        spec := containerSpec
        resourceTypes := c.resourceTypes }
    let r := fleet.CreateContainer w args s
    ⟨Go.Outcome.returned r.1, r.2, [Call.CreateContainer w args r.1]⟩

/-- A `fetchContainerCreator` seen through the interface `FetchContainerCreator`. -/
def fetchContainerCreator.toFetchContainerCreator {σ FS : Type} (pkg : PackageFuncs σ FS)
    (fleet : worker.Fleet σ) (c : fetchContainerCreator) : FetchContainerCreator σ :=
  { CreateWithVolume := fetchContainerCreator.CreateWithVolume pkg fleet c }

/-- The error a logged call returned (`nil` for a call on the logger, which returns none). -/
def Call.err : Call → Option Go.error
  | Call.FindContainerForIdentifier _ _ r => r.err
  | Call.Satisfying _ _ r => r.err
  | Call.FindOn _ _ r => r.err
  | Call.FindOrCreateOn _ _ r => r.err
  | Call.CreateWithVolume _ _ _ r => r.err
  | Call.CreateContainer _ _ r => r.err
  | Call.LoggerError _ _ _ => none
  | Call.LoggerDebug _ _ _ => none

/-- Whether a logged call is a call on the logger. -/
def Call.isLogger : Call → Bool
  | Call.LoggerError _ _ _ => true
  | Call.LoggerDebug _ _ _ => true
  | _ => false

/-- Whether a logged call is a call of `workerClient.Satisfying`. -/
def Call.isSatisfying : Call → Bool
  | Call.Satisfying _ _ _ => true
  | _ => false

/-- Whether a logged call is a call of `resourceInstance.FindOn`. -/
def Call.isFindOn : Call → Bool
  | Call.FindOn _ _ _ => true
  | _ => false

/-- Whether a logged call is a call of `resourceInstance.FindOrCreateOn`. -/
def Call.isFindOrCreateOn : Call → Bool
  | Call.FindOrCreateOn _ _ _ => true
  | _ => false

/-- Whether a logged call is a call of `FetchContainerCreator.CreateWithVolume`. -/
def Call.isCreateWithVolume : Call → Bool
  | Call.CreateWithVolume _ _ _ _ => true
  | _ => false

/-- Whether a logged call is a call of `Worker.CreateContainer`. -/
def Call.isCreateContainer : Call → Bool
  | Call.CreateContainer _ _ _ => true
  | _ => false

/-- The container lookup gave no reusable container: it reported `found = false`, or it gave a
container none of whose mounts is at `ResourcesDir("get")`. -/
def NoReusableContainer {σ FS : Type} (pkg : PackageFuncs σ FS)
    (r : worker.FindContainerResult) : Prop :=
  r.found = false ∨
    match r.container with
    | none => False
    | some c => ∀ m ∈ c.VolumeMounts, m.MountPath ≠ pkg.ResourcesDir "get"

/-- Error propagation of one run `x` of `Get`: it returns a non-nil error exactly when a call
in its log returned an error; and when it returns the error `e`, the source it returns is nil
and the log splits around the failing call, which is a collaborator call that returned `e`,
with no error returned by any call before it and only calls on the logger after it. -/
def ErrorsPropagate {σ FS : Type} (x : Exec σ (Option FS × Option Go.error)) : Prop :=
  ((∃ fs e, x.outcome = Go.Outcome.returned (fs, some e)) ↔
      ∃ call ∈ x.calls, call.err ≠ none) ∧
    ∀ fs e, x.outcome = Go.Outcome.returned (fs, some e) →
      fs = none ∧
      ∃ before failing after, x.calls = before ++ failing :: after ∧
        failing.isLogger = false ∧ failing.err = some e ∧
        (∀ call ∈ before, call.err = none) ∧ (∀ call ∈ after, call.isLogger = true)

instance NoReusableContainer.decidable {σ FS : Type} (pkg : PackageFuncs σ FS)
    (r : worker.FindContainerResult) : Decidable (NoReusableContainer pkg r) := by
  unfold NoReusableContainer
  cases r.container <;> exact inferInstance

end resource

namespace runtime

/-- Values of `context.Context`. -/
structure Context where
  name : String
deriving DecidableEq

/-- Values of `io.Writer`. -/
structure Writer where
  name : String
deriving DecidableEq

/-- One entry of `VersionResult.Metadata`. -/
structure MetadataField where
  Name : String
  Value : String
deriving DecidableEq

/-- Values of `runtime.VersionResult`. -/
structure VersionResult where
  Version : List (String × String)
  Metadata : List MetadataField
deriving DecidableEq

/-- Values of `runtime.ProcessSpec`, with the fields the test of `Resource.Get` sets. -/
structure ProcessSpec where
  Path : String
  Args : List String
  StderrWriter : Writer
deriving DecidableEq

end runtime

namespace atc.resource

/-- The struct behind `resource.Resource`, as `NewResource(source, params, version)` builds
it. -/
structure Resource where
  Source : List (String × String)
  Params : List (String × String)
  Version : List (String × String)
deriving DecidableEq

/-- The script input that `Signature()` computes. -/
structure Signature where
  Source : List (String × String)
  Params : List (String × String)
  Version : List (String × String)
deriving DecidableEq

/-- Modelled from the spec: `Resource.Signature`, which is not among the sources. The spec
says the signature is the resource identity; the error it also returns in the test is nil
there and the spec describes none. -/
def Resource.Signature (r : Resource) : Signature :=
  { Source := r.Source
    Params := r.Params
    Version := r.Version }

/-- Go results of `Resource.Get`: `(VersionResult, error)`. -/
structure GetResult where
  versionResult : runtime.VersionResult
  err : Option Go.error
deriving DecidableEq

/-- What the runner did with one `RunScript` call: the content it left in the variable that
the output reference points to, and the error it returned. -/
structure RunScriptResult where
  output : runtime.VersionResult
  err : Option Go.error
deriving DecidableEq

/-- The interface `runtime.Runner`, over a collaborator state `σ`. The fifth argument of
`RunScript` is a reference; the runner reads the content of the variable behind it and gives
back the content it leaves there. -/
structure Runner (σ : Type) where
  RunScript : runtime.Context → String → List String → Signature → runtime.VersionResult →
    runtime.Writer → Bool → σ → RunScriptResult × σ

/-- One logged call of `Runner.RunScript`: its arguments in order (for the output reference,
the content of the variable behind it when the call is made) and what the runner did. -/
structure RunScriptCall where
  ctx : runtime.Context
  path : String
  args : List String
  input : Signature
  output : runtime.VersionResult
  stderr : runtime.Writer
  recoverable : Bool
  results : RunScriptResult
deriving DecidableEq

/-- What running `Resource.Get` gives: its Go results, the collaborator state it left, and the
`RunScript` calls it made, in order. -/
structure GetExec (σ : Type) where
  results : GetResult
  state : σ
  calls : List RunScriptCall

/-- Modelled from the spec: `Resource.Get` of package `atc/resource`, of which only the test
is among the sources. Following section 4.4: it computes the signature, invokes
`runner.RunScript(ctx, spec.path, spec.args, signature, &versionResult, spec.stderr, true)`
on a fresh (zero) `versionResult`, and returns that variable together with the runner's
error. The spec does not say which `VersionResult` accompanies an error; the model returns the
variable as the runner left it. -/
def Resource.Get {σ : Type} (r : Resource) (ctx : runtime.Context) (spec : runtime.ProcessSpec)
    (runner : Runner σ) (s : σ) : GetExec σ :=
  let vr : runtime.VersionResult := { Version := [], Metadata := [] }
  let signature := r.Signature
  let ran := runner.RunScript ctx spec.Path spec.Args signature vr spec.StderrWriter true s
  { results := { versionResult := ran.1.output, err := ran.1.err }
    state := ran.2
    calls :=
      [{ ctx := ctx, path := spec.Path, args := spec.Args, input := signature, output := vr,
         stderr := spec.StderrWriter, recoverable := true, results := ran.1 }] }

end atc.resource

namespace resourcefakes

/-- A test double of `worker.Client` that gives fixed results; its state counts the calls
made on the collaborators. -/
def FakeClient (found : worker.FindContainerResult) (chosen : worker.SatisfyingResult) :
    worker.Client Nat :=
  { FindContainerForIdentifier := fun _ _ n => (found, n + 1)
    Satisfying := fun _ _ n => (chosen, n + 1) }

/-- A test double of `ResourceInstance` that gives fixed results. -/
def FakeResourceInstance (cached : resource.FindOnResult)
    (created : resource.FindOrCreateOnResult) : resource.ResourceInstance Nat :=
  { FindOn := fun _ _ n => (cached, n + 1)
    FindOrCreateOn := fun _ _ n => (created, n + 1) }

/-- A test double of the workers: `CreateContainer` gives fixed results. -/
def FakeFleet (created : worker.CreateContainerResult) : worker.Fleet Nat :=
  { CreateContainer := fun _ _ n => (created, n + 1) }

/-- A test double of `FetchContainerCreator`. -/
def FakeFetchContainerCreator : resource.FetchContainerCreator Nat :=
  { CreateWithVolume := fun resourceType volume chosenWorker n =>
      ⟨Go.Outcome.returned ⟨none, none⟩, n + 1,
        [resource.Call.CreateWithVolume resourceType volume chosenWorker ⟨none, none⟩]⟩ }

/-- A test double of `FetchSource` that records how it was built. -/
inductive FakeFetchSource where
  | containerBacked (logger : lager.Logger) (container : Option worker.Container)
      (volume : Option worker.Volume) (resourceOptions : resource.ResourceOptions)
  | volumeBacked (logger : lager.Logger) (volume : Option worker.Volume)
      (onWorker : Option worker.Worker) (resourceOptions : resource.ResourceOptions)
deriving DecidableEq

/-- The package functions used in the examples. -/
def pkg : resource.PackageFuncs Nat FakeFetchSource :=
  { ResourcesDir := fun suffix => "/tmp/build/" ++ suffix
    NewContainerFetchSource := FakeFetchSource.containerBacked
    NewVolumeFetchSource := fun logger volume onWorker resourceOptions _ =>
      FakeFetchSource.volumeBacked logger volume onWorker resourceOptions }

/-- A provider over the test doubles, built by the factory. -/
def provider (found : worker.FindContainerResult) (chosen : worker.SatisfyingResult)
    (cached : resource.FindOnResult) (created : resource.FindOrCreateOnResult) :
    resource.fetchSourceProvider Nat :=
  (resource.NewFetchSourceProviderFactory (FakeClient found chosen)).NewFetchSourceProvider
    ⟨"fetch"⟩ ⟨⟨"build-1/get"⟩, ⟨[("step", "get")]⟩, true⟩ ["linux"] 7 [⟨"git", "docker:///git"⟩]
    (FakeResourceInstance cached created) ⟨"git", "lock"⟩ FakeFetchContainerCreator

/-- The lookup results of the examples: a worker, and a created volume. -/
def someWorker : worker.SatisfyingResult := ⟨some ⟨"w1"⟩, none⟩

/-- The result of `FindOrCreateOn` in the examples. -/
def createdVolume : resource.FindOrCreateOnResult := ⟨some ⟨"v1"⟩, none⟩

/-- A container with the cache volume mounted second. -/
def someContainer : worker.Container :=
  { Handle := "c1"
    VolumeMounts :=
      [⟨some ⟨"scratch"⟩, "/scratch"⟩, ⟨some ⟨"cache-1"⟩, "/tmp/build/get"⟩,
       ⟨some ⟨"cache-2"⟩, "/tmp/build/get"⟩] }

/-- A container without a cache volume. -/
def bareContainer : worker.Container :=
  { Handle := "c2"
    VolumeMounts := [⟨some ⟨"scratch"⟩, "/scratch"⟩] }

/-- A provider whose session has a container with a cache volume. -/
def reuseProvider : resource.fetchSourceProvider Nat :=
  provider ⟨some someContainer, true, none⟩ someWorker ⟨none, false, none⟩ createdVolume

/-- A provider whose session has a container without a cache volume, and whose chosen worker
has a cache. -/
def hitProvider : resource.fetchSourceProvider Nat :=
  provider ⟨some bareContainer, true, none⟩ someWorker ⟨some ⟨"v0"⟩, true, none⟩ createdVolume

/-- A provider whose session has no container, and whose chosen worker has no cache. -/
def missProvider : resource.fetchSourceProvider Nat :=
  provider ⟨none, false, none⟩ someWorker ⟨none, false, none⟩ createdVolume

/-- A provider whose chosen worker has no cache and fails to create one. -/
def failingProvider : resource.fetchSourceProvider Nat :=
  provider ⟨none, false, none⟩ someWorker ⟨none, false, none⟩ ⟨none, some ⟨"disk full"⟩⟩

/-- A creator built by the factory. -/
def creator : resource.fetchContainerCreator :=
  resource.NewFetchContainerCreator ⟨"fetch"⟩ [⟨"git", "docker:///git"⟩] ["linux"]
    ⟨⟨"build-1/get"⟩, ⟨[("step", "get")]⟩, true⟩ ⟨["BUILD_ID=1"]⟩ ⟨"delegate"⟩

/-- A test double of `runtime.Runner` that gives a fixed error and writes a fixed result. -/
def FakeRunner (written : runtime.VersionResult) (err : Option Go.error) :
    atc.resource.Runner Nat :=
  { RunScript := fun _ _ _ _ _ _ _ n => (⟨written, err⟩, n + 1) }

end resourcefakes

namespace resource

/-! The loop of `findCacheVolumeForContainer` -/

/-- The loop returns the volume of the first mount at `ResourcesDir("get")`, if there is one. -/
theorem range_eq_find {σ FS : Type} (pkg : PackageFuncs σ FS)
    (mounts : List worker.VolumeMount) :
    findCacheVolumeForContainer.range pkg mounts =
      match mounts.find? (fun m => decide (m.MountPath = pkg.ResourcesDir "get")) with
      | some m => (m.Volume, true)
      | none => (none, false) := by
  induction mounts with
  | nil => rfl
  | cons mount rest ih =>
    by_cases h : mount.MountPath = pkg.ResourcesDir "get"
    · simp [findCacheVolumeForContainer.range, List.find?, h]
    · simp [findCacheVolumeForContainer.range, List.find?, h, ih]

/-- The loop reports `true` exactly when some mount is at `ResourcesDir("get")`. -/
theorem range_found_iff {σ FS : Type} (pkg : PackageFuncs σ FS)
    (mounts : List worker.VolumeMount) :
    (findCacheVolumeForContainer.range pkg mounts).2 = true ↔
      ∃ m ∈ mounts, m.MountPath = pkg.ResourcesDir "get" := by
  induction mounts with
  | nil => simp [findCacheVolumeForContainer.range]
  | cons mount rest ih =>
    by_cases h : mount.MountPath = pkg.ResourcesDir "get"
    · simp [findCacheVolumeForContainer.range, h]
    · simp [findCacheVolumeForContainer.range, h, ih]

/-- When the loop reports `true`, the mounts split at the first one at `ResourcesDir("get")`,
whose volume is returned. -/
theorem range_first {σ FS : Type} (pkg : PackageFuncs σ FS)
    (mounts : List worker.VolumeMount)
    (h : (findCacheVolumeForContainer.range pkg mounts).2 = true) :
    ∃ before m after, mounts = before ++ m :: after ∧
      (∀ x ∈ before, x.MountPath ≠ pkg.ResourcesDir "get") ∧
      m.MountPath = pkg.ResourcesDir "get" ∧
      (findCacheVolumeForContainer.range pkg mounts).1 = m.Volume := by
  induction mounts with
  | nil => simp [findCacheVolumeForContainer.range] at h
  | cons mount rest ih =>
    by_cases hm : mount.MountPath = pkg.ResourcesDir "get"
    · exact ⟨[], mount, rest, rfl, by simp, hm, by simp [findCacheVolumeForContainer.range, hm]⟩
    · have h2 : (findCacheVolumeForContainer.range pkg rest).2 = true := by
        simpa [findCacheVolumeForContainer.range, hm] using h
      obtain ⟨before, m, after, hsplit, hbefore, hmount, hvol⟩ := ih h2
      refine ⟨mount :: before, m, after, by simp [hsplit], ?_, hmount, ?_⟩
      · intro x hx
        rcases List.mem_cons.mp hx with hx | hx
        · exact hx ▸ hm
        · exact hbefore x hx
      · simpa [findCacheVolumeForContainer.range, hm] using hvol

/-- When the loop reports `false`, the volume it returns is nil. -/
theorem range_not_found {σ FS : Type} (pkg : PackageFuncs σ FS)
    (mounts : List worker.VolumeMount)
    (h : (findCacheVolumeForContainer.range pkg mounts).2 = false) :
    (findCacheVolumeForContainer.range pkg mounts).1 = none := by
  induction mounts with
  | nil => rfl
  | cons mount rest ih =>
    by_cases hm : mount.MountPath = pkg.ResourcesDir "get"
    · simp [findCacheVolumeForContainer.range, hm] at h
    · have h2 : (findCacheVolumeForContainer.range pkg rest).2 = false := by
        simpa [findCacheVolumeForContainer.range, hm] using h
      simpa [findCacheVolumeForContainer.range, hm] using ih h2

/-- C10: for every container, `findCacheVolumeForContainer` returns, and it returns
`found = true` exactly when some mount of the container is at `ResourcesDir("get")`; when
found, the returned volume is that of the first such mount in list order (every mount before
it is at another path); when not found, which covers the empty mount list, the returned
volume is nil. -/
theorem findCacheVolumeForContainer_first_get_mount {σ FS : Type} (pkg : PackageFuncs σ FS)
    (container : worker.Container) :
    ∃ volume found,
      findCacheVolumeForContainer pkg (some container) = Go.Outcome.returned (volume, found) ∧
      (found = true ↔ ∃ m ∈ container.VolumeMounts, m.MountPath = pkg.ResourcesDir "get") ∧
      (found = true →
        ∃ before m after, container.VolumeMounts = before ++ m :: after ∧
          (∀ x ∈ before, x.MountPath ≠ pkg.ResourcesDir "get") ∧
          m.MountPath = pkg.ResourcesDir "get" ∧ volume = m.Volume) ∧
      (found = false → volume = none) ∧
      (container.VolumeMounts = [] → found = false) := by
  refine ⟨(findCacheVolumeForContainer.range pkg container.VolumeMounts).1,
    (findCacheVolumeForContainer.range pkg container.VolumeMounts).2, rfl,
    range_found_iff pkg _, range_first pkg _, range_not_found pkg _, ?_⟩
  intro h
  rw [h]
  rfl

/-! `fetchSourceProvider.Get`: the container reuse path -/

/-- C1: when the container lookup returns `(container, true, nil)` and some mount of the
container is at `ResourcesDir("get")`, `Get` returns, with a nil error, the source that
`NewContainerFetchSource` builds from the provider's logger, that same container, the volume
of the (first) mount at that path and the provider's resource options; the lookup is the only
call it makes, so `Satisfying`, `FindOn` and `FindOrCreateOn` are not called. -/
theorem Get_reuses_found_container {σ FS : Type} (pkg : PackageFuncs σ FS)
    (f : fetchSourceProvider σ) (s0 s1 : σ) (container : worker.Container)
    (hfind : f.workerClient.FindContainerForIdentifier f.logger f.session.ID s0 =
      (⟨some container, true, none⟩, s1))
    (hmount : ∃ m ∈ container.VolumeMounts, m.MountPath = pkg.ResourcesDir "get") :
    ∃ m, container.VolumeMounts.find?
          (fun m => decide (m.MountPath = pkg.ResourcesDir "get")) = some m ∧
      (fetchSourceProvider.Get pkg f s0).outcome =
        Go.Outcome.returned
          (some (pkg.NewContainerFetchSource f.logger (some container) m.Volume
            f.resourceOptions), none) ∧
      (fetchSourceProvider.Get pkg f s0).calls =
        [Call.FindContainerForIdentifier f.logger f.session.ID ⟨some container, true, none⟩] ∧
      (fetchSourceProvider.Get pkg f s0).calls.countP Call.isSatisfying = 0 ∧
      (fetchSourceProvider.Get pkg f s0).calls.countP Call.isFindOn = 0 ∧
      (fetchSourceProvider.Get pkg f s0).calls.countP Call.isFindOrCreateOn = 0 := by
  obtain ⟨m0, hm0, hpath⟩ := hmount
  cases hf : container.VolumeMounts.find?
      (fun m => decide (m.MountPath = pkg.ResourcesDir "get")) with
  | none =>
    have := List.find?_eq_none.mp hf m0 hm0
    simp [hpath] at this
  | some m =>
    refine ⟨m, rfl, ?_⟩
    simp [fetchSourceProvider.Get, hfind, findCacheVolumeForContainer, range_eq_find, hf,
      Call.isSatisfying, Call.isFindOn, Call.isFindOrCreateOn]

/-- C1 at a concrete provider: the found container has two mounts at the get path and the
volume of the first one is used. -/
theorem Get_reuses_found_container_witness :
    resourcefakes.reuseProvider.workerClient.FindContainerForIdentifier
        resourcefakes.reuseProvider.logger resourcefakes.reuseProvider.session.ID 0 =
      (⟨some resourcefakes.someContainer, true, none⟩, 1) ∧
    (∃ m ∈ resourcefakes.someContainer.VolumeMounts,
      m.MountPath = resourcefakes.pkg.ResourcesDir "get") ∧
    (fetchSourceProvider.Get resourcefakes.pkg resourcefakes.reuseProvider 0).outcome =
      Go.Outcome.returned
        (some (resourcefakes.FakeFetchSource.containerBacked ⟨"fetch"⟩
          (some resourcefakes.someContainer) (some ⟨"cache-1"⟩) ⟨"git", "lock"⟩), none) ∧
    (fetchSourceProvider.Get resourcefakes.pkg resourcefakes.reuseProvider 0).calls =
      [Call.FindContainerForIdentifier ⟨"fetch"⟩ ⟨"build-1/get"⟩
        ⟨some resourcefakes.someContainer, true, none⟩] := by
  have hmount : ∃ m ∈ resourcefakes.someContainer.VolumeMounts,
      m.MountPath = resourcefakes.pkg.ResourcesDir "get" :=
    ⟨⟨some ⟨"cache-1"⟩, "/tmp/build/get"⟩, by decide, by decide⟩
  obtain ⟨m, hm, hout, hcalls, _⟩ :=
    Get_reuses_found_container resourcefakes.pkg resourcefakes.reuseProvider 0 1
      resourcefakes.someContainer rfl hmount
  have hfirst : resourcefakes.someContainer.VolumeMounts.find?
      (fun m => decide (m.MountPath = resourcefakes.pkg.ResourcesDir "get")) =
      some ⟨some ⟨"cache-1"⟩, "/tmp/build/get"⟩ := by decide
  have hmeq : m = ⟨some ⟨"cache-1"⟩, "/tmp/build/get"⟩ := Option.some.inj (hm.symm.trans hfirst)
  subst hmeq
  exact ⟨rfl, hmount, hout, hcalls⟩

/-! `fetchSourceProvider.Get`: worker selection and the cache volume -/

/-- Without a lookup error and without a reusable container, `Get` continues with worker
selection, having made the lookup call only. -/
theorem Get_eq_placement {σ FS : Type} (pkg : PackageFuncs σ FS) (f : fetchSourceProvider σ)
    (s0 s1 : σ) (r1 : worker.FindContainerResult)
    (hfind : f.workerClient.FindContainerForIdentifier f.logger f.session.ID s0 = (r1, s1))
    (herr : r1.err = none) (hno : NoReusableContainer pkg r1) :
    fetchSourceProvider.Get pkg f s0 =
      fetchSourceProvider.Get.placement pkg f s1
        [Call.FindContainerForIdentifier f.logger f.session.ID r1] := by
  rcases hno with hfalse | hmounts
  · simp [fetchSourceProvider.Get, hfind, herr, hfalse]
  · cases hc : r1.container with
    | none => simp [hc] at hmounts
    | some c =>
      simp only [hc] at hmounts
      have hrange : (findCacheVolumeForContainer.range pkg c.VolumeMounts).2 = false := by
        cases hb : (findCacheVolumeForContainer.range pkg c.VolumeMounts).2 with
        | false => rfl
        | true =>
          obtain ⟨m, hm, hpath⟩ := (range_found_iff pkg c.VolumeMounts).mp hb
          exact absurd hpath (hmounts m hm)
      cases hfound : r1.found with
      | false => simp [fetchSourceProvider.Get, hfind, herr, hfound]
      | true =>
        simp [fetchSourceProvider.Get, hfind, herr, hfound, hc, findCacheVolumeForContainer,
          hrange]

/-- C3: without a reusable container (and without a lookup error), when `Satisfying` returns
worker `W` and `FindOn(W)` returns `(V, true, nil)` for a volume `V`, `Get` returns with a nil
error the source `NewVolumeFetchSource(logger, V, W, resourceOptions, containerCreator)`, and
`FindOrCreateOn` is not called. -/
theorem Get_uses_found_cache {σ FS : Type} (pkg : PackageFuncs σ FS)
    (f : fetchSourceProvider σ) (s0 s1 s2 s3 : σ) (r1 : worker.FindContainerResult)
    (W : Option worker.Worker) (V : worker.Volume)
    (hfind : f.workerClient.FindContainerForIdentifier f.logger f.session.ID s0 = (r1, s1))
    (herr : r1.err = none) (hno : NoReusableContainer pkg r1)
    (hsat : f.workerClient.Satisfying ⟨f.resourceOptions.ResourceType, f.tags, f.teamID⟩
      f.resourceTypes s1 = (⟨W, none⟩, s2))
    (hon : f.resourceInstance.FindOn f.logger W s2 = (⟨some V, true, none⟩, s3)) :
    (fetchSourceProvider.Get pkg f s0).outcome =
        Go.Outcome.returned
          (some (pkg.NewVolumeFetchSource f.logger (some V) W f.resourceOptions
            f.containerCreator), none) ∧
      (fetchSourceProvider.Get pkg f s0).calls.countP Call.isFindOrCreateOn = 0 ∧
      (fetchSourceProvider.Get pkg f s0).state = s3 := by
  rw [Get_eq_placement pkg f s0 s1 r1 hfind herr hno]
  simp [fetchSourceProvider.Get.placement, hsat, hon, Call.isFindOrCreateOn]

/-- C3 at a concrete provider: the session's container has no cache volume and the chosen
worker has the cache. -/
theorem Get_uses_found_cache_witness :
    resourcefakes.hitProvider.workerClient.FindContainerForIdentifier
        resourcefakes.hitProvider.logger resourcefakes.hitProvider.session.ID 0 =
      (⟨some resourcefakes.bareContainer, true, none⟩, 1) ∧
    NoReusableContainer resourcefakes.pkg ⟨some resourcefakes.bareContainer, true, none⟩ ∧
    (fetchSourceProvider.Get resourcefakes.pkg resourcefakes.hitProvider 0).outcome =
      Go.Outcome.returned
        (some (resourcefakes.FakeFetchSource.volumeBacked ⟨"fetch"⟩ (some ⟨"v0"⟩)
          (some ⟨"w1"⟩) ⟨"git", "lock"⟩), none) ∧
    (fetchSourceProvider.Get resourcefakes.pkg resourcefakes.hitProvider 0).calls.countP
      Call.isFindOrCreateOn = 0 ∧
    (fetchSourceProvider.Get resourcefakes.pkg resourcefakes.hitProvider 0).state = 3 :=
  ⟨rfl, by decide,
    Get_uses_found_cache resourcefakes.pkg resourcefakes.hitProvider 0 1 2 3
      ⟨some resourcefakes.bareContainer, true, none⟩ (some ⟨"w1"⟩) ⟨"v0"⟩ rfl rfl (by decide)
      rfl rfl⟩

/-- C4: without a reusable container (and without a lookup error), when `Satisfying` returns
worker `W` and `FindOn(W)` returns `found = false` with a nil error, `Get` calls
`FindOrCreateOn` exactly once, on `W`; when that call returns `(V2, nil)`, `Get` returns with a
nil error the source `NewVolumeFetchSource(logger, V2, W, resourceOptions, containerCreator)`,
whatever volume `v0` came with `found = false` from `FindOn`. -/
theorem Get_creates_missing_cache {σ FS : Type} (pkg : PackageFuncs σ FS)
    (f : fetchSourceProvider σ) (s0 s1 s2 s3 : σ) (r1 : worker.FindContainerResult)
    (W : Option worker.Worker) (v0 : Option worker.Volume)
    (hfind : f.workerClient.FindContainerForIdentifier f.logger f.session.ID s0 = (r1, s1))
    (herr : r1.err = none) (hno : NoReusableContainer pkg r1)
    (hsat : f.workerClient.Satisfying ⟨f.resourceOptions.ResourceType, f.tags, f.teamID⟩
      f.resourceTypes s1 = (⟨W, none⟩, s2))
    (hon : f.resourceInstance.FindOn f.logger W s2 = (⟨v0, false, none⟩, s3)) :
    (fetchSourceProvider.Get pkg f s0).calls.filter Call.isFindOrCreateOn =
        [Call.FindOrCreateOn f.logger W (f.resourceInstance.FindOrCreateOn f.logger W s3).1] ∧
      (fetchSourceProvider.Get pkg f s0).calls.countP Call.isFindOrCreateOn = 1 ∧
      ∀ (V2 : Option worker.Volume) (s4 : σ),
        f.resourceInstance.FindOrCreateOn f.logger W s3 = (⟨V2, none⟩, s4) →
        (fetchSourceProvider.Get pkg f s0).outcome =
          Go.Outcome.returned
            (some (pkg.NewVolumeFetchSource f.logger V2 W f.resourceOptions
              f.containerCreator), none) := by
  rw [Get_eq_placement pkg f s0 s1 r1 hfind herr hno]
  refine ⟨?_, ?_, ?_⟩
  · simp only [fetchSourceProvider.Get.placement, hsat, hon]
    cases (f.resourceInstance.FindOrCreateOn f.logger W s3).1.err <;>
      simp [Call.isFindOrCreateOn, List.filter]
  · simp only [fetchSourceProvider.Get.placement, hsat, hon]
    cases (f.resourceInstance.FindOrCreateOn f.logger W s3).1.err <;>
      simp [Call.isFindOrCreateOn, List.countP_cons]
  · intro V2 s4 hcreate
    simp [fetchSourceProvider.Get.placement, hsat, hon, hcreate]

/-- C4 at a concrete provider: no container for the session, no cache on the chosen worker. -/
theorem Get_creates_missing_cache_witness :
    resourcefakes.missProvider.workerClient.FindContainerForIdentifier
        resourcefakes.missProvider.logger resourcefakes.missProvider.session.ID 0 =
      (⟨none, false, none⟩, 1) ∧
    NoReusableContainer resourcefakes.pkg ⟨none, false, none⟩ ∧
    resourcefakes.missProvider.resourceInstance.FindOn ⟨"fetch"⟩ (some ⟨"w1"⟩) 2 =
      (⟨none, false, none⟩, 3) ∧
    (fetchSourceProvider.Get resourcefakes.pkg resourcefakes.missProvider 0).calls.filter
        Call.isFindOrCreateOn =
      [Call.FindOrCreateOn ⟨"fetch"⟩ (some ⟨"w1"⟩) ⟨some ⟨"v1"⟩, none⟩] ∧
    (fetchSourceProvider.Get resourcefakes.pkg resourcefakes.missProvider 0).outcome =
      Go.Outcome.returned
        (some (resourcefakes.FakeFetchSource.volumeBacked ⟨"fetch"⟩ (some ⟨"v1"⟩)
          (some ⟨"w1"⟩) ⟨"git", "lock"⟩), none) :=
  ⟨rfl, by decide, rfl,
    (Get_creates_missing_cache resourcefakes.pkg resourcefakes.missProvider 0 1 2 3
      ⟨none, false, none⟩ (some ⟨"w1"⟩) none rfl rfl (by decide) rfl rfl).1,
    (Get_creates_missing_cache resourcefakes.pkg resourcefakes.missProvider 0 1 2 3
      ⟨none, false, none⟩ (some ⟨"w1"⟩) none rfl rfl (by decide) rfl rfl).2.2
      (some ⟨"v1"⟩) 4 rfl⟩

/-- C9: without a reusable container (and without a lookup error), `Get` calls `Satisfying`
exactly once, with the worker spec made of `string(resourceOptions.ResourceType())`, the
provider's tags and its team id, and with the provider's resource types; the worker that call
returns is the one every `FindOn` and `FindOrCreateOn` call receives, and the one in the
source `Get` returns. -/
theorem Get_selects_worker {σ FS : Type} (pkg : PackageFuncs σ FS)
    (f : fetchSourceProvider σ) (s0 s1 : σ) (r1 : worker.FindContainerResult)
    (hfind : f.workerClient.FindContainerForIdentifier f.logger f.session.ID s0 = (r1, s1))
    (herr : r1.err = none) (hno : NoReusableContainer pkg r1) :
    (fetchSourceProvider.Get pkg f s0).calls.filter Call.isSatisfying =
        [Call.Satisfying ⟨f.resourceOptions.ResourceType, f.tags, f.teamID⟩ f.resourceTypes
          (f.workerClient.Satisfying ⟨f.resourceOptions.ResourceType, f.tags, f.teamID⟩
            f.resourceTypes s1).1] ∧
      (∀ logger onWorker results,
        Call.FindOn logger onWorker results ∈ (fetchSourceProvider.Get pkg f s0).calls →
        onWorker = (f.workerClient.Satisfying ⟨f.resourceOptions.ResourceType, f.tags, f.teamID⟩
          f.resourceTypes s1).1.worker) ∧
      (∀ logger onWorker results,
        Call.FindOrCreateOn logger onWorker results ∈ (fetchSourceProvider.Get pkg f s0).calls →
        onWorker = (f.workerClient.Satisfying ⟨f.resourceOptions.ResourceType, f.tags, f.teamID⟩
          f.resourceTypes s1).1.worker) ∧
      (∀ fs err, (fetchSourceProvider.Get pkg f s0).outcome =
          Go.Outcome.returned (some fs, err) →
        ∃ volume, fs = pkg.NewVolumeFetchSource f.logger volume
          (f.workerClient.Satisfying ⟨f.resourceOptions.ResourceType, f.tags, f.teamID⟩
            f.resourceTypes s1).1.worker f.resourceOptions f.containerCreator) := by
  rw [Get_eq_placement pkg f s0 s1 r1 hfind herr hno]
  simp only [fetchSourceProvider.Get.placement]
  rcases f.workerClient.Satisfying ⟨f.resourceOptions.ResourceType, f.tags, f.teamID⟩
    f.resourceTypes s1 with ⟨⟨W, e2⟩, s2⟩
  cases e2 with
  | some e => simp +contextual [Call.isSatisfying, List.filter]
  | none =>
    rcases f.resourceInstance.FindOn f.logger W s2 with ⟨⟨v, found, e3⟩, s3⟩
    cases e3 with
    | some e => simp +contextual [Call.isSatisfying, List.filter]
    | none =>
      cases found with
      | true =>
        cases v with
        | none => simp +contextual [Call.isSatisfying, List.filter]
        | some cachedVolume =>
          simp +contextual [Call.isSatisfying, List.filter]
          exact ⟨_, rfl⟩
      | false =>
        rcases f.resourceInstance.FindOrCreateOn f.logger W s3 with ⟨⟨v2, e4⟩, s4⟩
        cases e4 with
        | some e => simp +contextual [Call.isSatisfying, List.filter]
        | none =>
          simp +contextual [Call.isSatisfying, List.filter]
          exact ⟨_, rfl⟩

/-- C9 at a concrete provider: the worker spec, the resource types and the worker handed on. -/
theorem Get_selects_worker_witness :
    resourcefakes.missProvider.workerClient.FindContainerForIdentifier
        resourcefakes.missProvider.logger resourcefakes.missProvider.session.ID 0 =
      (⟨none, false, none⟩, 1) ∧
    NoReusableContainer resourcefakes.pkg ⟨none, false, none⟩ ∧
    (fetchSourceProvider.Get resourcefakes.pkg resourcefakes.missProvider 0).calls.filter
        Call.isSatisfying =
      [Call.Satisfying ⟨"git", ["linux"], 7⟩ [⟨"git", "docker:///git"⟩] ⟨some ⟨"w1"⟩, none⟩] ∧
    (∀ logger onWorker results,
      Call.FindOrCreateOn logger onWorker results ∈
        (fetchSourceProvider.Get resourcefakes.pkg resourcefakes.missProvider 0).calls →
      onWorker = some ⟨"w1"⟩) :=
  ⟨rfl, by decide,
    (Get_selects_worker resourcefakes.pkg resourcefakes.missProvider 0 1 ⟨none, false, none⟩
      rfl rfl (by decide)).1,
    (Get_selects_worker resourcefakes.pkg resourcefakes.missProvider 0 1 ⟨none, false, none⟩
      rfl rfl (by decide)).2.2.1⟩

/-! `fetchSourceProvider.Get`: every execution path -/

/-- The six ways the part of `Get` after the container reuse check can run. -/
theorem placement_cases {σ FS : Type} (pkg : PackageFuncs σ FS) (f : fetchSourceProvider σ)
    (s1 : σ) (t1 : List Call) :
    ∃ r2 s2, f.workerClient.Satisfying ⟨f.resourceOptions.ResourceType, f.tags, f.teamID⟩
        f.resourceTypes s1 = (r2, s2) ∧
      ((∃ e, r2.err = some e ∧
          fetchSourceProvider.Get.placement pkg f s1 t1 =
            ⟨Go.Outcome.returned (none, some e), s2,
              t1 ++ [Call.Satisfying ⟨f.resourceOptions.ResourceType, f.tags, f.teamID⟩
                  f.resourceTypes r2,
                Call.LoggerError f.logger "no-workers-satisfying-spec" e]⟩) ∨
       (r2.err = none ∧ ∃ r3 s3, f.resourceInstance.FindOn f.logger r2.worker s2 = (r3, s3) ∧
          ((∃ e, r3.err = some e ∧
              fetchSourceProvider.Get.placement pkg f s1 t1 =
                ⟨Go.Outcome.returned (none, some e), s3,
                  t1 ++ [Call.Satisfying ⟨f.resourceOptions.ResourceType, f.tags, f.teamID⟩
                      f.resourceTypes r2,
                    Call.FindOn f.logger r2.worker r3,
                    Call.LoggerError f.logger "failed-to-look-for-cache" e]⟩) ∨
           (r3.err = none ∧ r3.found = true ∧ r3.volume = none ∧
              fetchSourceProvider.Get.placement pkg f s1 t1 =
                ⟨Go.Outcome.panicked, s3,
                  t1 ++ [Call.Satisfying ⟨f.resourceOptions.ResourceType, f.tags, f.teamID⟩
                      f.resourceTypes r2,
                    Call.FindOn f.logger r2.worker r3]⟩) ∨
           (∃ V, r3.err = none ∧ r3.found = true ∧ r3.volume = some V ∧
              fetchSourceProvider.Get.placement pkg f s1 t1 =
                ⟨Go.Outcome.returned
                    (some (pkg.NewVolumeFetchSource f.logger (some V) r2.worker
                      f.resourceOptions f.containerCreator), none),
                  s3,
                  t1 ++ [Call.Satisfying ⟨f.resourceOptions.ResourceType, f.tags, f.teamID⟩
                      f.resourceTypes r2,
                    Call.FindOn f.logger r2.worker r3,
                    Call.LoggerDebug f.logger "found-cache" [("volume", V.Handle)]]⟩) ∨
           (r3.err = none ∧ r3.found = false ∧
              ∃ r4 s4, f.resourceInstance.FindOrCreateOn f.logger r2.worker s3 = (r4, s4) ∧
                ((∃ e, r4.err = some e ∧
                    fetchSourceProvider.Get.placement pkg f s1 t1 =
                      ⟨Go.Outcome.returned (none, some e), s4,
                        t1 ++ [Call.Satisfying
                            ⟨f.resourceOptions.ResourceType, f.tags, f.teamID⟩
                            f.resourceTypes r2,
                          Call.FindOn f.logger r2.worker r3,
                          Call.LoggerDebug f.logger "no-cache-found" [],
                          Call.FindOrCreateOn f.logger r2.worker r4,
                          Call.LoggerError f.logger "failed-to-create-cache" e]⟩) ∨
                 (r4.err = none ∧
                    fetchSourceProvider.Get.placement pkg f s1 t1 =
                      ⟨Go.Outcome.returned
                          (some (pkg.NewVolumeFetchSource f.logger r4.volume r2.worker
                            f.resourceOptions f.containerCreator), none),
                        s4,
                        t1 ++ [Call.Satisfying
                            ⟨f.resourceOptions.ResourceType, f.tags, f.teamID⟩
                            f.resourceTypes r2,
                          Call.FindOn f.logger r2.worker r3,
                          Call.LoggerDebug f.logger "no-cache-found" [],
                          Call.FindOrCreateOn f.logger r2.worker r4]⟩)))))) := by
  simp only [fetchSourceProvider.Get.placement]
  rcases f.workerClient.Satisfying ⟨f.resourceOptions.ResourceType, f.tags, f.teamID⟩
    f.resourceTypes s1 with ⟨⟨W, e2⟩, s2⟩
  refine ⟨_, _, rfl, ?_⟩
  cases e2 with
  | some e => simp
  | none =>
    rcases f.resourceInstance.FindOn f.logger W s2 with ⟨⟨v, found, e3⟩, s3⟩
    refine Or.inr ⟨rfl, _, _, rfl, ?_⟩
    cases e3 with
    | some e => simp
    | none =>
      cases found with
      | true => cases v <;> simp
      | false =>
        rcases f.resourceInstance.FindOrCreateOn f.logger W s3 with ⟨⟨v2, e4⟩, s4⟩
        refine Or.inr (Or.inr (Or.inr ⟨rfl, rfl, _, _, rfl, ?_⟩))
        cases e4 <;> simp

/-- The four ways `Get` can run up to the container reuse check. -/
theorem Get_cases {σ FS : Type} (pkg : PackageFuncs σ FS) (f : fetchSourceProvider σ)
    (s0 : σ) :
    ∃ r1 s1, f.workerClient.FindContainerForIdentifier f.logger f.session.ID s0 = (r1, s1) ∧
      ((∃ e, r1.err = some e ∧
          fetchSourceProvider.Get pkg f s0 =
            ⟨Go.Outcome.returned (none, some e), s1,
              [Call.FindContainerForIdentifier f.logger f.session.ID r1,
                Call.LoggerError f.logger "failed-to-look-for-existing-container" e]⟩) ∨
       (r1.err = none ∧ r1.found = true ∧ r1.container = none ∧
          fetchSourceProvider.Get pkg f s0 =
            ⟨Go.Outcome.panicked, s1,
              [Call.FindContainerForIdentifier f.logger f.session.ID r1]⟩) ∨
       (∃ c volume, r1.err = none ∧ r1.found = true ∧ r1.container = some c ∧
          findCacheVolumeForContainer.range pkg c.VolumeMounts = (volume, true) ∧
          fetchSourceProvider.Get pkg f s0 =
            ⟨Go.Outcome.returned
                (some (pkg.NewContainerFetchSource f.logger (some c) volume
                  f.resourceOptions), none),
              s1, [Call.FindContainerForIdentifier f.logger f.session.ID r1]⟩) ∨
       (r1.err = none ∧ NoReusableContainer pkg r1 ∧
          fetchSourceProvider.Get pkg f s0 =
            fetchSourceProvider.Get.placement pkg f s1
              [Call.FindContainerForIdentifier f.logger f.session.ID r1])) := by
  rcases hfind : f.workerClient.FindContainerForIdentifier f.logger f.session.ID s0 with
    ⟨⟨c, found, e1⟩, s1⟩
  refine ⟨_, _, rfl, ?_⟩
  cases e1 with
  | some e => simp [fetchSourceProvider.Get, hfind]
  | none =>
    refine Or.inr ?_
    cases found with
    | false =>
      have hno : NoReusableContainer pkg ⟨c, false, none⟩ := Or.inl rfl
      exact Or.inr (Or.inr ⟨rfl, hno, Get_eq_placement pkg f s0 s1 _ hfind rfl hno⟩)
    | true =>
      cases c with
      | none => simp [fetchSourceProvider.Get, hfind, findCacheVolumeForContainer]
      | some c =>
        rcases hrange : findCacheVolumeForContainer.range pkg c.VolumeMounts with ⟨volume, b⟩
        cases b with
        | true =>
          refine Or.inr (Or.inl ⟨c, volume, rfl, rfl, rfl, hrange, ?_⟩)
          simp [fetchSourceProvider.Get, hfind, findCacheVolumeForContainer, hrange]
        | false =>
          have hno : NoReusableContainer pkg ⟨some c, true, none⟩ := by
            refine Or.inr ?_
            intro m hm hpath
            have := (range_found_iff pkg c.VolumeMounts).mpr ⟨m, hm, hpath⟩
            simp [hrange] at this
          exact Or.inr (Or.inr ⟨rfl, hno, Get_eq_placement pkg f s0 s1 _ hfind rfl hno⟩)

/-- A run that ends right after a failing collaborator call and the log line for it
propagates the error. -/
theorem errorsPropagate_of_failure {σ FS : Type} (s : σ) (before : List Call)
    (failing logLine : Call) (e : Go.error) (hbefore : ∀ call ∈ before, call.err = none)
    (hcollab : failing.isLogger = false) (hfail : failing.err = some e)
    (hlog : logLine.isLogger = true) :
    ErrorsPropagate
      (⟨Go.Outcome.returned (none, some e), s, before ++ [failing, logLine]⟩ :
        Exec σ (Option FS × Option Go.error)) := by
  refine ⟨⟨fun _ => ⟨failing, by simp, by simp [hfail]⟩, fun _ => ⟨none, e, rfl⟩⟩, ?_⟩
  intro fs e2 hout
  simp only [Go.Outcome.returned.injEq, Prod.mk.injEq, Option.some.injEq] at hout
  obtain ⟨hfs, he⟩ := hout
  subst he
  refine ⟨hfs.symm, before, failing, [logLine], rfl, hcollab, hfail, hbefore, ?_⟩
  intro call hcall
  rw [List.mem_singleton.mp hcall]
  exact hlog

/-- A run that returns no error, or panics, after calls that all returned a nil error
propagates errors (there is none). -/
theorem errorsPropagate_of_success {σ FS : Type} (x : Exec σ (Option FS × Option Go.error))
    (hout : ∀ fs e, x.outcome ≠ Go.Outcome.returned (fs, some e))
    (hcalls : ∀ call ∈ x.calls, call.err = none) : ErrorsPropagate x := by
  refine ⟨⟨?_, ?_⟩, ?_⟩
  · rintro ⟨fs, e, h⟩
    exact absurd h (hout fs e)
  · rintro ⟨call, hmem, hne⟩
    exact absurd (hcalls call hmem) hne
  · intro fs e h
    exact absurd h (hout fs e)

/-- The part of `Get` after the container reuse check propagates errors, when no call before
it returned one. -/
theorem placement_errorsPropagate {σ FS : Type} (pkg : PackageFuncs σ FS)
    (f : fetchSourceProvider σ) (s1 : σ) (t1 : List Call)
    (ht1 : ∀ call ∈ t1, call.err = none) :
    ErrorsPropagate (fetchSourceProvider.Get.placement pkg f s1 t1) := by
  obtain ⟨r2, s2, -, h⟩ := placement_cases pkg f s1 t1
  rcases h with ⟨e, he, hrun⟩ | ⟨he2, r3, s3, -, h⟩
  · rw [hrun]
    exact errorsPropagate_of_failure s2 t1 _ _ e ht1 rfl he rfl
  · rcases h with ⟨e, he, hrun⟩ | ⟨he3, -, -, hrun⟩ | ⟨V, he3, -, -, hrun⟩ |
      ⟨he3, -, r4, s4, -, h⟩
    · rw [hrun]
      have hb : ∀ call ∈ t1 ++ [Call.Satisfying ⟨f.resourceOptions.ResourceType, f.tags,
          f.teamID⟩ f.resourceTypes r2], call.err = none := by
        intro call hcall
        rcases List.mem_append.mp hcall with h | h
        · exact ht1 call h
        · rw [List.mem_singleton.mp h]
          exact he2
      have := @errorsPropagate_of_failure σ FS s3 _ (Call.FindOn f.logger r2.worker r3)
        (Call.LoggerError f.logger "failed-to-look-for-cache" e) e hb rfl he rfl
      simpa using this
    · rw [hrun]
      refine errorsPropagate_of_success _ (by simp) ?_
      intro call hcall
      simp only [List.mem_append, List.mem_cons, List.mem_singleton, List.not_mem_nil,
        or_false] at hcall
      rcases hcall with h | rfl | rfl
      · exact ht1 call h
      · exact he2
      · exact he3
    · rw [hrun]
      refine errorsPropagate_of_success _ (by simp) ?_
      intro call hcall
      simp only [List.mem_append, List.mem_cons, List.mem_singleton, List.not_mem_nil,
        or_false] at hcall
      rcases hcall with h | rfl | rfl | rfl
      · exact ht1 call h
      · exact he2
      · exact he3
      · rfl
    · have hb : ∀ call ∈ t1 ++ [Call.Satisfying ⟨f.resourceOptions.ResourceType, f.tags,
          f.teamID⟩ f.resourceTypes r2, Call.FindOn f.logger r2.worker r3,
          Call.LoggerDebug f.logger "no-cache-found" []], call.err = none := by
        intro call hcall
        simp only [List.mem_append, List.mem_cons, List.mem_singleton, List.not_mem_nil,
          or_false] at hcall
        rcases hcall with h | rfl | rfl | rfl
        · exact ht1 call h
        · exact he2
        · exact he3
        · rfl
      rcases h with ⟨e, he, hrun⟩ | ⟨he4, hrun⟩
      · rw [hrun]
        have := @errorsPropagate_of_failure σ FS s4 _
          (Call.FindOrCreateOn f.logger r2.worker r4)
          (Call.LoggerError f.logger "failed-to-create-cache" e) e hb rfl he rfl
        simpa using this
      · rw [hrun]
        refine errorsPropagate_of_success _ (by simp) ?_
        intro call hcall
        simp only [List.mem_append, List.mem_cons, List.mem_singleton, List.not_mem_nil,
          or_false] at hcall
        rcases hcall with h | rfl | rfl | rfl | rfl
        · exact ht1 call h
        · exact he2
        · exact he3
        · rfl
        · exact he4

/-- A run in which `FindOrCreateOn` fails: the error comes back as it is, with a nil source,
after four collaborator calls. -/
theorem Get_failing_create_example :
    (fetchSourceProvider.Get resourcefakes.pkg resourcefakes.failingProvider 0).outcome =
        Go.Outcome.returned (none, some ⟨"disk full"⟩) ∧
      (fetchSourceProvider.Get resourcefakes.pkg resourcefakes.failingProvider 0).state = 4 ∧
      (fetchSourceProvider.Get resourcefakes.pkg resourcefakes.failingProvider 0).calls =
        [Call.FindContainerForIdentifier ⟨"fetch"⟩ ⟨"build-1/get"⟩ ⟨none, false, none⟩,
          Call.Satisfying ⟨"git", ["linux"], 7⟩ [⟨"git", "docker:///git"⟩] ⟨some ⟨"w1"⟩, none⟩,
          Call.FindOn ⟨"fetch"⟩ (some ⟨"w1"⟩) ⟨none, false, none⟩,
          Call.LoggerDebug ⟨"fetch"⟩ "no-cache-found" [],
          Call.FindOrCreateOn ⟨"fetch"⟩ (some ⟨"w1"⟩) ⟨none, some ⟨"disk full"⟩⟩,
          Call.LoggerError ⟨"fetch"⟩ "failed-to-create-cache" ⟨"disk full"⟩] := by
  decide

/-- C2: `Get` returns a non-nil error exactly when one of the calls it made returned an
error; in that case the error it returns is the one the failing call returned, the source it
returns is nil, the failing call is a collaborator call, no call before it returned an error,
and after it `Get` calls nothing but the logger. -/
theorem Get_propagates_errors {σ FS : Type} (pkg : PackageFuncs σ FS)
    (f : fetchSourceProvider σ) (s0 : σ) :
    ((∃ fs e, (fetchSourceProvider.Get pkg f s0).outcome = Go.Outcome.returned (fs, some e)) ↔
        ∃ call ∈ (fetchSourceProvider.Get pkg f s0).calls, call.err ≠ none) ∧
      ∀ fs e, (fetchSourceProvider.Get pkg f s0).outcome = Go.Outcome.returned (fs, some e) →
        fs = none ∧
        ∃ before failing after,
          (fetchSourceProvider.Get pkg f s0).calls = before ++ failing :: after ∧
          failing.isLogger = false ∧ failing.err = some e ∧
          (∀ call ∈ before, call.err = none) ∧ (∀ call ∈ after, call.isLogger = true) := by
  show ErrorsPropagate (fetchSourceProvider.Get pkg f s0)
  obtain ⟨r1, s1, -, h⟩ := Get_cases pkg f s0
  rcases h with ⟨e, he, hrun⟩ | ⟨he1, -, -, hrun⟩ | ⟨c, volume, he1, -, -, -, hrun⟩ |
    ⟨he1, -, hrun⟩
  · rw [hrun]
    exact errorsPropagate_of_failure s1 [] _ _ e (by simp) rfl he rfl
  · rw [hrun]
    refine errorsPropagate_of_success _ (by simp) ?_
    intro call hcall
    rw [List.mem_singleton.mp hcall]
    exact he1
  · rw [hrun]
    refine errorsPropagate_of_success _ (by simp) ?_
    intro call hcall
    rw [List.mem_singleton.mp hcall]
    exact he1
  · rw [hrun]
    refine placement_errorsPropagate pkg f s1 _ ?_
    intro call hcall
    rw [List.mem_singleton.mp hcall]
    exact he1

/-- The calls made after the container reuse check, and the collaborator state left, do not
depend on the container creator the provider holds. -/
theorem placement_creator_irrelevant {σ FS : Type} (pkg : PackageFuncs σ FS)
    (f : fetchSourceProvider σ) (s1 : σ) (t1 : List Call) (other : FetchContainerCreator σ) :
    (fetchSourceProvider.Get.placement pkg { f with containerCreator := other } s1 t1).calls =
        (fetchSourceProvider.Get.placement pkg f s1 t1).calls ∧
      (fetchSourceProvider.Get.placement pkg { f with containerCreator := other } s1 t1).state =
        (fetchSourceProvider.Get.placement pkg f s1 t1).state := by
  simp only [fetchSourceProvider.Get.placement]
  rcases f.workerClient.Satisfying ⟨f.resourceOptions.ResourceType, f.tags, f.teamID⟩
    f.resourceTypes s1 with ⟨⟨W, e2⟩, s2⟩
  cases e2 with
  | some e => simp
  | none =>
    rcases f.resourceInstance.FindOn f.logger W s2 with ⟨⟨v, cacheFound, e3⟩, s3⟩
    cases e3 with
    | some e => simp
    | none =>
      cases cacheFound with
      | true => cases v <;> simp
      | false =>
        rcases f.resourceInstance.FindOrCreateOn f.logger W s3 with ⟨⟨v2, e4⟩, s4⟩
        cases e4 <;> simp

/-- The calls `Get` makes and the collaborator state it leaves do not depend on the container
creator the provider holds. -/
theorem Get_creator_irrelevant {σ FS : Type} (pkg : PackageFuncs σ FS)
    (f : fetchSourceProvider σ) (s0 : σ) (other : FetchContainerCreator σ) :
    (fetchSourceProvider.Get pkg { f with containerCreator := other } s0).calls =
        (fetchSourceProvider.Get pkg f s0).calls ∧
      (fetchSourceProvider.Get pkg { f with containerCreator := other } s0).state =
        (fetchSourceProvider.Get pkg f s0).state := by
  simp only [fetchSourceProvider.Get]
  rcases f.workerClient.FindContainerForIdentifier f.logger f.session.ID s0 with
    ⟨⟨c, found, e1⟩, s1⟩
  cases e1 with
  | some e => simp
  | none =>
    cases found with
    | false => simpa using placement_creator_irrelevant pkg f s1 _ other
    | true =>
      cases c with
      | none => simp [findCacheVolumeForContainer]
      | some c =>
        rcases hrange : findCacheVolumeForContainer.range pkg c.VolumeMounts with ⟨volume, b⟩
        cases b with
        | true => simp [findCacheVolumeForContainer, hrange]
        | false =>
          simpa [findCacheVolumeForContainer, hrange] using
            placement_creator_irrelevant pkg f s1 _ other

/-- The part of `Get` after the container reuse check makes no call on the container creator
and creates no container, and a source it returns is volume-backed and holds the provider's
creator. -/
theorem placement_never_calls_creator {σ FS : Type} (pkg : PackageFuncs σ FS)
    (f : fetchSourceProvider σ) (s1 : σ) (t1 : List Call)
    (h1 : t1.countP Call.isCreateWithVolume = 0) (h2 : t1.countP Call.isCreateContainer = 0) :
    (fetchSourceProvider.Get.placement pkg f s1 t1).calls.countP
        Call.isCreateWithVolume = 0 ∧
      (fetchSourceProvider.Get.placement pkg f s1 t1).calls.countP
        Call.isCreateContainer = 0 ∧
      ∀ fs err, (fetchSourceProvider.Get.placement pkg f s1 t1).outcome =
          Go.Outcome.returned (some fs, err) →
        ∃ volume onWorker, fs = pkg.NewVolumeFetchSource f.logger volume onWorker
          f.resourceOptions f.containerCreator := by
  obtain ⟨r2, s2, -, h⟩ := placement_cases pkg f s1 t1
  rcases h with ⟨e, -, hrun⟩ | ⟨-, r3, s3, -, h⟩
  · simp [hrun, List.countP_append, Call.isCreateWithVolume, Call.isCreateContainer, h1, h2]
  · rcases h with ⟨e, -, hrun⟩ | ⟨-, -, -, hrun⟩ | ⟨V, -, -, -, hrun⟩ | ⟨-, -, r4, s4, -, h⟩
    · simp [hrun, List.countP_append, Call.isCreateWithVolume, Call.isCreateContainer, h1, h2]
    · simp [hrun, List.countP_append, Call.isCreateWithVolume, Call.isCreateContainer, h1, h2]
    · simp only [hrun]
      refine ⟨by simp [List.countP_append, Call.isCreateWithVolume, h1],
        by simp [List.countP_append, Call.isCreateContainer, h2], ?_⟩
      intro fs err hout
      simp only [Go.Outcome.returned.injEq, Prod.mk.injEq, Option.some.injEq] at hout
      exact ⟨_, _, hout.1.symm⟩
    · rcases h with ⟨e, -, hrun⟩ | ⟨-, hrun⟩
      · simp [hrun, List.countP_append, Call.isCreateWithVolume, Call.isCreateContainer, h1, h2]
      · simp only [hrun]
        refine ⟨by simp [List.countP_append, Call.isCreateWithVolume, h1],
          by simp [List.countP_append, Call.isCreateContainer, h2], ?_⟩
        intro fs err hout
        simp only [Go.Outcome.returned.injEq, Prod.mk.injEq, Option.some.injEq] at hout
        exact ⟨_, _, hout.1.symm⟩

/-- C8: on every path of `Get`, the call log holds no `CreateWithVolume` call and no
`CreateContainer` call; the calls made and the collaborator state left are the same
whichever creator the provider holds; and a source that `Get` returns is either
container-backed, built without the creator, or volume-backed with the provider's creator
stored in it. -/
theorem Get_never_calls_creator {σ FS : Type} (pkg : PackageFuncs σ FS)
    (f : fetchSourceProvider σ) (s0 : σ) :
    (fetchSourceProvider.Get pkg f s0).calls.countP Call.isCreateWithVolume = 0 ∧
      (fetchSourceProvider.Get pkg f s0).calls.countP Call.isCreateContainer = 0 ∧
      (∀ other : FetchContainerCreator σ,
        (fetchSourceProvider.Get pkg { f with containerCreator := other } s0).calls =
            (fetchSourceProvider.Get pkg f s0).calls ∧
          (fetchSourceProvider.Get pkg { f with containerCreator := other } s0).state =
            (fetchSourceProvider.Get pkg f s0).state) ∧
      ∀ fs err, (fetchSourceProvider.Get pkg f s0).outcome =
          Go.Outcome.returned (some fs, err) →
        (∃ container volume, fs = pkg.NewContainerFetchSource f.logger container volume
            f.resourceOptions) ∨
          ∃ volume onWorker, fs = pkg.NewVolumeFetchSource f.logger volume onWorker
            f.resourceOptions f.containerCreator := by
  refine ⟨?_, ?_, Get_creator_irrelevant pkg f s0, ?_⟩
  all_goals
    obtain ⟨r1, s1, -, h⟩ := Get_cases pkg f s0
    rcases h with ⟨e, -, hrun⟩ | ⟨-, -, -, hrun⟩ | ⟨c, volume, -, -, -, -, hrun⟩ | ⟨-, -, hrun⟩
  · simp [hrun, Call.isCreateWithVolume]
  · simp [hrun, Call.isCreateWithVolume]
  · simp [hrun, Call.isCreateWithVolume]
  · rw [hrun]
    exact (placement_never_calls_creator pkg f s1
      [Call.FindContainerForIdentifier f.logger f.session.ID r1] rfl rfl).1
  · simp [hrun, Call.isCreateContainer]
  · simp [hrun, Call.isCreateContainer]
  · simp [hrun, Call.isCreateContainer]
  · rw [hrun]
    exact (placement_never_calls_creator pkg f s1
      [Call.FindContainerForIdentifier f.logger f.session.ID r1] rfl rfl).2.1
  · simp [hrun]
  · simp [hrun]
  · intro fs err hout
    simp only [hrun, Go.Outcome.returned.injEq, Prod.mk.injEq, Option.some.injEq] at hout
    exact Or.inl ⟨_, _, hout.1.symm⟩
  · intro fs err hout
    rw [hrun] at hout
    exact Or.inr ((placement_never_calls_creator pkg f s1
      [Call.FindContainerForIdentifier f.logger f.session.ID r1] rfl rfl).2.2 fs err hout)

/-! `fetchContainerCreator.CreateWithVolume` -/

/-- C5: for every resource type, volume and worker, the one call that `CreateWithVolume`
makes is `CreateContainer` with a container spec whose image spec has the given resource type
and is privileged, whose `Ephemeral` is the session's, whose `Env` is `metadata.Env()`, whose
`Outputs` is the single mount of the given volume at `ResourcesDir("get")`, and whose `Inputs`
is empty. -/
theorem CreateWithVolume_container_spec {σ FS : Type} (pkg : PackageFuncs σ FS)
    (fleet : worker.Fleet σ) (c : fetchContainerCreator) (resourceType : String)
    (volume : Option worker.Volume) (chosenWorker : worker.Worker) (s : σ) :
    ∃ args results,
      (fetchContainerCreator.CreateWithVolume pkg fleet c resourceType volume
          (some chosenWorker) s).calls = [Call.CreateContainer chosenWorker args results] ∧
      args.spec.ImageSpec.ResourceType = resourceType ∧
      args.spec.ImageSpec.Privileged = true ∧
      args.spec.Ephemeral = c.session.Ephemeral ∧
      args.spec.Env = c.metadata.Env ∧
      args.spec.Outputs = [⟨volume, pkg.ResourcesDir "get"⟩] ∧
      args.spec.Outputs.length = 1 ∧
      args.spec.Inputs = [] :=
  ⟨_, _, rfl, rfl, rfl, rfl, rfl, rfl, rfl, rfl⟩

/-- C6: `CreateWithVolume` makes exactly one call, `CreateContainer` on the worker it is
given (whatever worker the creator stores), with the session's `ID` and `Metadata` as
identifier and metadata, and it returns the results of that call as they are: it returns
the error `e` exactly when `CreateContainer` does, and the container likewise. -/
theorem CreateWithVolume_delegates {σ FS : Type} (pkg : PackageFuncs σ FS)
    (fleet : worker.Fleet σ) (c : fetchContainerCreator) (resourceType : String)
    (volume : Option worker.Volume) (chosenWorker : worker.Worker) (s : σ) :
    ∃ args,
      (fetchContainerCreator.CreateWithVolume pkg fleet c resourceType volume
          (some chosenWorker) s).calls =
        [Call.CreateContainer chosenWorker args
          (fleet.CreateContainer chosenWorker args s).1] ∧
      (fetchContainerCreator.CreateWithVolume pkg fleet c resourceType volume
          (some chosenWorker) s).calls.countP Call.isCreateContainer = 1 ∧
      args.id = c.session.ID ∧
      args.metadata = c.session.Metadata ∧
      (fetchContainerCreator.CreateWithVolume pkg fleet c resourceType volume
          (some chosenWorker) s).outcome =
        Go.Outcome.returned (fleet.CreateContainer chosenWorker args s).1 ∧
      (fetchContainerCreator.CreateWithVolume pkg fleet c resourceType volume
          (some chosenWorker) s).state = (fleet.CreateContainer chosenWorker args s).2 ∧
      ∀ e, (∃ container,
          (fetchContainerCreator.CreateWithVolume pkg fleet c resourceType volume
            (some chosenWorker) s).outcome = Go.Outcome.returned ⟨container, some e⟩) ↔
        (fleet.CreateContainer chosenWorker args s).1.err = some e := by
  refine ⟨_, rfl, rfl, rfl, rfl, rfl, rfl, ?_⟩
  intro e
  simp only [fetchContainerCreator.CreateWithVolume, Go.Outcome.returned.injEq]
  constructor
  · rintro ⟨container, h⟩
    rw [h]
  · intro h
    exact ⟨_, by rw [← h]⟩

/-- A run of `CreateWithVolume` in which the worker fails to create the container: one call,
and its results come back as they are. -/
theorem CreateWithVolume_failing_example :
    (fetchContainerCreator.CreateWithVolume resourcefakes.pkg
        (resourcefakes.FakeFleet ⟨none, some ⟨"image pull failed"⟩⟩) resourcefakes.creator "git"
        (some ⟨"v1"⟩) (some ⟨"w1"⟩) 0).outcome =
        Go.Outcome.returned ⟨none, some ⟨"image pull failed"⟩⟩ ∧
      ((fetchContainerCreator.CreateWithVolume resourcefakes.pkg
        (resourcefakes.FakeFleet ⟨none, some ⟨"image pull failed"⟩⟩) resourcefakes.creator "git"
        (some ⟨"v1"⟩) (some ⟨"w1"⟩) 0).calls.map
          fun call => match call with
            | Call.CreateContainer receiver args _ => some (receiver, args.spec)
            | _ => none) =
        [some (⟨"w1"⟩,
          { ImageSpec := ⟨"git", true⟩
            Ephemeral := true
            Tags := ["linux"]
            Env := ["BUILD_ID=1"]
            Inputs := []
            Outputs := [⟨some ⟨"v1"⟩, "/tmp/build/get"⟩] })] := by
  decide

end resource

namespace atc.resource

/-! `Resource.Get` -/

/-- C7: for every resource, context, process spec and runner, `Resource.Get` makes one call,
`RunScript` with the context, `spec.Path`, `spec.Args`, the resource's signature, the
reference to its result variable, `spec.StderrWriter` and `recoverable = true`; the error
`Get` returns is the one that call returned, nil or not, and the version result `Get` returns
is what the runner left behind the reference. -/
theorem Get_runs_script {σ : Type} (r : Resource) (ctx : runtime.Context)
    (spec : runtime.ProcessSpec) (runner : Runner σ) (s : σ) :
    ∃ call, (Resource.Get r ctx spec runner s).calls = [call] ∧
      call.ctx = ctx ∧ call.path = spec.Path ∧ call.args = spec.Args ∧
      call.input = r.Signature ∧ call.stderr = spec.StderrWriter ∧
      call.recoverable = true ∧
      call.results =
        (runner.RunScript ctx spec.Path spec.Args r.Signature call.output spec.StderrWriter
          true s).1 ∧
      (Resource.Get r ctx spec runner s).results.err = call.results.err ∧
      (Resource.Get r ctx spec runner s).results.versionResult = call.results.output :=
  ⟨_, rfl, rfl, rfl, rfl, rfl, rfl, rfl, rfl, rfl, rfl⟩

/-- A run of `Resource.Get` in which the script fails: the runner's error comes back. -/
theorem Get_failing_script_example :
    (Resource.Get ⟨[("some", "source")], [("some", "params")], [("some", "version")]⟩
        ⟨"background"⟩ ⟨"some/fake/path", ["first-arg", "some-other-arg"], ⟨"stderr"⟩⟩
        (resourcefakes.FakeRunner ⟨[], []⟩ (some ⟨"there was an issue"⟩)) 0).results.err =
      some ⟨"there was an issue"⟩ := by
  decide

end atc.resource
